import Mathlib

/-!
Shallow embedding of the `api-gateway` Rust sources (src/api-gateway/src/):
`health.rs`, `proxy.rs`, `middleware.rs`, `rate_limiter.rs`, `config.rs` and the
error mapping of `main.rs`.  Rust `&str`/`String` values are embedded as lists of
characters, `u32` arithmetic is carried out modulo 2^32, fallible operations
return `Option`/`Except`, and stateful code is written as explicit state
passing.  Environment effects (the wall clock, UUID generation, the Redis
store, upstream responses) are passed in as explicit parameters.
-/

/-- Rust string slices, embedded as lists of characters. -/
abbrev Str := List Char

/-- Build a `Str` from a Lean string literal. -/
def str (s : String) : Str := s.toList

/-- 2^32, the wrap-around modulus of Rust `u32` arithmetic. -/
def u32mod : Nat := 4294967296

/-! ### health.rs : data model -/

/-- `HealthStatus` from health.rs (Healthy / Unhealthy / Unknown). -/
inductive HealthStatus
  | Healthy
  | Unhealthy
  | Unknown
deriving DecidableEq, Repr

/-- `ServerHealth` from health.rs: per-server health record. -/
structure ServerHealth where
  url : Str
  status : HealthStatus
  response_time_ms : Option Nat
  last_check : Nat
  consecutive_failures : Nat
  consecutive_successes : Nat
deriving DecidableEq, Repr

/-- `HealthCheckConfig` from config.rs. -/
structure HealthCheckConfig where
  enabled : Bool
  path : Str
  interval_seconds : Nat
  timeout_seconds : Nat
  healthy_threshold : Nat
  unhealthy_threshold : Nat
deriving DecidableEq, Repr

/-- The health-check configuration installed by `Config::default_config`
(config.rs lines 114-121): H = 2, U = 3. -/
def default_health_check : HealthCheckConfig :=
  { enabled := true
    path := str "/health"
    interval_seconds := 30
    timeout_seconds := 5
    healthy_threshold := 2
    unhealthy_threshold := 3 }

/-- The initial per-server record built by `HealthChecker::new`
(health.rs lines 59-66): status `Unknown`, both counters zero. -/
def init_server_health (url : Str) : ServerHealth :=
  { url := url
    status := HealthStatus.Unknown
    response_time_ms := none
    last_check := 0
    consecutive_failures := 0
    consecutive_successes := 0 }

/-- The per-record body of `HealthChecker::update_server_health`
(health.rs lines 193-209): stamp `last_check` and `response_time_ms`; on a
successful probe set status `Healthy`, bump `consecutive_successes` and clear
`consecutive_failures`; on a failed probe set status `Unhealthy`, bump
`consecutive_failures` and clear `consecutive_successes`.  The configured
thresholds are not consulted here.  `u32` increments wrap modulo 2^32. -/
def update_server_health (s : ServerHealth) (is_healthy : Bool)
    (response_time_ms : Option Nat) (now : Nat) : ServerHealth :=
  if is_healthy then
    { s with
      last_check := now
      response_time_ms := response_time_ms
      status := HealthStatus.Healthy
      consecutive_successes := (s.consecutive_successes + 1) % u32mod
      consecutive_failures := 0 }
  else
    { s with
      last_check := now
      response_time_ms := response_time_ms
      status := HealthStatus.Unhealthy
      consecutive_failures := (s.consecutive_failures + 1) % u32mod
      consecutive_successes := 0 }

/-- Fold a sequence of probe outcomes (`true` = HTTP 2xx in time) through
`update_server_health`, as the prober's repeated ticks do
(health.rs `check_server_health` always calls `update_server_health`
with `Some(response_time)`). -/
def apply_probes (s : ServerHealth) (probes : List Bool) : ServerHealth :=
  probes.foldl (fun acc ok => update_server_health acc ok (some 1) 0) s

/-! ### config.rs : routing data model -/

/-- `LoadBalancingStrategy` from config.rs. -/
inductive LoadBalancingStrategy
  | RoundRobin
  | LeastConnections
  | Random
  | WeightedRoundRobin
deriving DecidableEq, Repr

/-- `RouteConfig` from config.rs. -/
structure RouteConfig where
  path : Str
  method : Option Str
  backend : Str
  load_balancing : LoadBalancingStrategy
  rate_limit : Option Nat
  auth_required : Bool
  timeout_ms : Option Nat
deriving DecidableEq, Repr

/-! ### proxy.rs : route matching and server selection -/

/-- Rust `str::starts_with` on the embedded strings. -/
def starts_with (s pre : Str) : Bool := pre.isPrefixOf s

/-- `ProxyService::path_matches` (proxy.rs lines 178-185): a pattern ending in
a literal star matches any path having the pattern minus its final character
as a raw string prefix; any other pattern matches by exact equality. -/
def path_matches (pattern path : Str) : Bool :=
  if pattern.getLast? == some '*' then
    starts_with path pattern.dropLast
  else
    pattern == path

/-- `ProxyService::find_matching_route` (proxy.rs lines 168-176): scan
`config.routes` in declaration order and return the first route whose
pattern matches; `none` embeds the "No matching route found" error. -/
def find_matching_route (routes : List RouteConfig) (path : Str) :
    Option RouteConfig :=
  routes.find? (fun route => path_matches route.path path)

/-- The route lookup as performed for a request with method `m` and path `p`:
`ProxyService::proxy_request` (proxy.rs line 84) calls `find_matching_route`
with the URI path only, so the request method does not participate. -/
def match_route (m : Str) (routes : List RouteConfig) (path : Str) :
    Option RouteConfig :=
  find_matching_route routes path

/-- `ServerState` from proxy.rs: per-server routing state
(`connections` embeds the `AtomicUsize` in-flight counter). -/
structure ServerState where
  url : Str
  healthy : Bool
  connections : Nat
deriving DecidableEq, Repr

/-- `BackendState` from proxy.rs (`current_index` embeds the
round-robin `AtomicUsize` cursor). -/
structure BackendState where
  servers : List ServerState
  current_index : Nat
deriving DecidableEq, Repr

/-- The per-backend state built by `ProxyService::new` (proxy.rs lines 48-66):
every server starts with `healthy = true` and zero in-flight connections. -/
def init_backend_state (urls : List Str) : BackendState :=
  { servers := urls.map (fun url => { url := url, healthy := true, connections := 0 })
    current_index := 0 }

/-- First element of minimal `connections` among a list of
(server, index) pairs — Rust `Iterator::min_by_key`, which returns the first
of equally minimal elements (proxy.rs lines 212-215). -/
def min_by_connections : List (ServerState × Nat) → Option (ServerState × Nat)
  | [] => none
  | p :: ps =>
    match min_by_connections ps with
    | none => some p
    | some q => if q.1.connections < p.1.connections then some q else some p

/-- `ProxyService::select_server` (proxy.rs lines 187-233).  The servers are
filtered to those with `healthy = true`; an empty healthy set embeds as
`none` (the "No healthy servers available" error).  RoundRobin and
WeightedRoundRobin pick `healthy[current_index % len]` and bump the cursor;
LeastConnections picks the first healthy server of minimal in-flight count;
Random picks `healthy[rand_idx]` where `rand_idx` embeds the sampled value of
`gen_range(0..len)` (reduced mod the length to stay total).  The chosen
server's connection counter is incremented before returning its URL. -/
def select_server (b : BackendState) (strategy : LoadBalancingStrategy)
    (rand_idx : Nat) : Option (Str × BackendState) :=
  let indexed := b.servers.zip (List.range b.servers.length)
  let healthy := indexed.filter (fun p => p.1.healthy)
  if healthy.isEmpty then
    none
  else
    let chosen : Option (ServerState × Nat) :=
      match strategy with
      | LoadBalancingStrategy.RoundRobin =>
          healthy.get? (b.current_index % healthy.length)
      | LoadBalancingStrategy.LeastConnections =>
          min_by_connections healthy
      | LoadBalancingStrategy.Random =>
          healthy.get? (rand_idx % healthy.length)
      | LoadBalancingStrategy.WeightedRoundRobin =>
          healthy.get? (b.current_index % healthy.length)
    match chosen with
    | none => none
    | some (srv, i) =>
        some (srv.url,
          { servers := b.servers.mapIdx (fun j s =>
              if j = i then { s with connections := s.connections + 1 } else s)
            current_index :=
              match strategy with
              | LoadBalancingStrategy.RoundRobin => b.current_index + 1
              | LoadBalancingStrategy.WeightedRoundRobin => b.current_index + 1
              | _ => b.current_index })

/-! ### proxy.rs : outbound request construction and dispatch -/

/-- Lower-casing of a header name (Rust `str::to_lowercase` on ASCII names). -/
def lower (s : Str) : Str := s.map Char.toLower

/-- The outbound header construction of `ProxyService::proxy_request`
(proxy.rs lines 110-119): copy every request header whose lower-cased name is
not `host`, `connection` or `content-length`, then add
`X-Request-ID: request_id` (reqwest's `header` appends, so the added pair
sits at the end). -/
def outbound_headers (req_headers : List (Str × Str)) (request_id : Str) :
    List (Str × Str) :=
  req_headers.filter (fun p =>
    !(lower p.1 == str "host" || lower p.1 == str "connection"
      || lower p.1 == str "content-length"))
  ++ [(str "X-Request-ID", request_id)]

/-- The observable behaviour of one upstream exchange, supplied by the
environment: the upstream either answers (some status/headers/body), exceeds
the deadline, or fails at transport level.  In proxy.rs both failure shapes
surface as the same `reqwest::Error` from `send().await?`. -/
inductive UpstreamOutcome
  | success (status : Nat) (headers : List (Str × Str)) (body : Str)
  | timeout
  | transport_error
deriving DecidableEq, Repr

/-- The failure shapes of `ProxyService::proxy_request`; all are `anyhow`
errors in the source, distinguished here by their construction site. -/
inductive ProxyError
  | no_matching_route
  | no_healthy_server
  | upstream_error
deriving DecidableEq, Repr

/-- Upstream response as translated back by proxy.rs lines 134-157. -/
structure ProxyResponse where
  status : Nat
  headers : List (Str × Str)
  body : Str
deriving DecidableEq, Repr

/-- `ProxyService::proxy_request` (proxy.rs lines 75-166), restricted to its
control flow and its effect on the backend state: find the matching route for
the path, select a server (incrementing its connection counter), then perform
the upstream exchange.  A timeout and a transport error are both the single
`?` failure of `send().await` (proxy.rs line 132) and are indistinguishable
`anyhow` errors to the caller.  No code on any path decrements a connection
counter (the sources contain no `fetch_sub`), so the state returned after
completion is exactly the post-selection state. -/
def proxy_request (routes : List RouteConfig) (bstate : BackendState)
    (rand_idx : Nat) (path : Str) (outcome : UpstreamOutcome) :
    Except ProxyError ProxyResponse × BackendState :=
  match find_matching_route routes path with
  | none => (Except.error ProxyError.no_matching_route, bstate)
  | some route =>
    match select_server bstate route.load_balancing rand_idx with
    | none => (Except.error ProxyError.no_healthy_server, bstate)
    | some (_, bstate') =>
      match outcome with
      | UpstreamOutcome.success st hs bd =>
          (Except.ok { status := st, headers := hs, body := bd }, bstate')
      | UpstreamOutcome.timeout =>
          (Except.error ProxyError.upstream_error, bstate')
      | UpstreamOutcome.transport_error =>
          (Except.error ProxyError.upstream_error, bstate')

/-! ### main.rs : the outermost error mapping -/

/-- `proxy_handler` (main.rs lines 213-227): an `Ok` proxy result is relayed
with its upstream status; every `Err` from the proxy becomes
`StatusCode::BAD_GATEWAY` (502). -/
def proxy_handler_status (result : Except ProxyError ProxyResponse) : Nat :=
  match result with
  | Except.ok r => r.status
  | Except.error _ => 502

/-! ### rate_limiter.rs : the distributed fixed-window limiter -/

/-- `RateLimitError` from rate_limiter.rs. -/
inductive RateLimitError
  | Exceeded
  | InternalError (msg : Str)
deriving DecidableEq, Repr

/-- `RateLimiter::get_current_window_start` (rate_limiter.rs lines 117-125):
the current unix time rounded down to the minute. -/
def get_current_window_start (now : Nat) : Nat := now - now % 60

/-- Decimal rendering of a number, as Rust's `format!` writes it. -/
def nat_str (n : Nat) : Str := (Nat.repr n).toList

/-- The Redis key used by `check_rate_limit_redis` (rate_limiter.rs
lines 94-96): `rate_limit:{client_id}:{window_start}`. -/
def window_key (client_id : Str) (now : Nat) : Str :=
  str "rate_limit:" ++ client_id ++ str ":" ++ nat_str (get_current_window_start now)

/-- The state of the Redis interaction as seen by the limiter: whether a
client was configured at construction, whether a connection can currently be
obtained, and the stored counter per key (0 when the key is absent).  Key
expiry only removes stale windows and is not modelled. -/
structure RedisState where
  has_client : Bool
  conn_ok : Bool
  counters : Str → Nat

/-- Rust `u32 as i32`: two's-complement reinterpretation. -/
def u32_as_i32 (x : Nat) : Int :=
  if x % u32mod < 2147483648 then ((x % u32mod : Nat) : Int)
  else ((x % u32mod : Nat) : Int) - 4294967296

/-- The client-side reply list of the pipeline at rate_limiter.rs
lines 99-106, one entry per non-ignored command: `incr` replies with the
post-increment value, `expire` is `.ignore()`d, and `get` replies with the
stored (just-incremented) value — two replies in total. -/
def pipeline_replies (counters : Str → Nat) (key : Str) : List Nat :=
  [counters key + 1, counters key + 1]

/-- redis-rs conversion of a pipeline reply list into the destructured
target type `(i32,)`: it requires exactly one reply, which must fit in
`i32`; any other reply count (or an oversized value) fails the query with a
type/wrong-dimension error. -/
def from_redis_one_i32 (replies : List Nat) : Option Nat :=
  match replies with
  | [v] => if v < 2147483648 then some v else none
  | _ => none

/-- `RateLimiter::check_rate_limit_redis` (rate_limiter.rs lines 87-115):
fail with `InternalError` when no client is configured or no connection can
be obtained; otherwise run the pipeline (the server executes INCR and
EXPIRE, so the stored counter is incremented) and destructure its replies
into `(i32,)`.  The pipeline has two non-ignored commands, so this
conversion receives two replies, never one, and always fails - the `?` then
returns `InternalError ("Redis query error: ...")` before the comparison
below is reached.  Had the conversion produced a count, it would be compared
against `default_requests_per_minute as i32` (larger is `Exceeded`,
otherwise the check passes), as lines 108-114 are written. -/
def check_rate_limit_redis (st : RedisState) (client_id : Str) (now : Nat)
    (default_requests_per_minute : Nat) :
    Except RateLimitError Unit × RedisState :=
  if !st.has_client then
    (Except.error (RateLimitError.InternalError (str "Redis client not configured")), st)
  else if !st.conn_ok then
    (Except.error (RateLimitError.InternalError (str "Redis connection error")), st)
  else
    let key := window_key client_id now
    let new_count := st.counters key + 1
    let st' : RedisState :=
      { st with counters := fun k => if k == key then new_count else st.counters k }
    match from_redis_one_i32 (pipeline_replies st.counters key) with
    | none =>
        (Except.error (RateLimitError.InternalError (str "Redis query error")), st')
    | some current_count =>
        if (current_count : Int) > u32_as_i32 default_requests_per_minute then
          (Except.error RateLimitError.Exceeded, st')
        else
          (Except.ok (), st')

/-- `RateLimiter::check_rate_limit` (rate_limiter.rs lines 54-60): dispatch on
the configured storage string.  The in-memory branch delegates to the external
`governor` crate and is abstracted as a supplied result. -/
def check_rate_limit (storage : Str) (st : RedisState) (client_id : Str)
    (now : Nat) (default_requests_per_minute : Nat)
    (memory_result : Except RateLimitError Unit) :
    Except RateLimitError Unit × RedisState :=
  if storage == str "redis" then
    check_rate_limit_redis st client_id now default_requests_per_minute
  else
    (memory_result, st)

/-! ### middleware.rs : the filter chain -/

/-- `path_matches` from middleware.rs lines 136-143 (a separate function in
the source, with the same body as the proxy's). -/
def mw_path_matches (pattern path : Str) : Bool :=
  if pattern.getLast? == some '*' then
    starts_with path pattern.dropLast
  else
    pattern == path

/-- Outcome of one middleware layer: call the next layer, or terminate the
request with a status code. -/
inductive MwDecision
  | proceed
  | reject (status : Nat)
deriving DecidableEq, Repr

/-- `rate_limit_middleware` (middleware.rs lines 49-68): pass through when
rate limiting is disabled; otherwise run the limiter and terminate with
`429 TOO_MANY_REQUESTS` on ANY limiter error (`if let Err(_)` does not
distinguish `Exceeded` from `InternalError`); pass through on `Ok`. -/
def rate_limit_middleware (enabled : Bool)
    (check : Except RateLimitError Unit) : MwDecision :=
  if !enabled then MwDecision.proceed
  else
    match check with
    | Except.error _ => MwDecision.reject 429
    | Except.ok _ => MwDecision.proceed

/-- `auth_middleware` (middleware.rs lines 70-113): pass through when auth is
disabled; pass through when any `bypass_paths` entry matches the request path
via `mw_path_matches`; otherwise pass through on a valid bearer token or a
valid API key (validation is delegated to `AuthService`, abstracted as the
two booleans), else terminate with 401. -/
def auth_middleware (enabled : Bool) (bypass_paths : List Str) (path : Str)
    (bearer_token_valid : Bool) (api_key_valid : Bool) : MwDecision :=
  if !enabled then MwDecision.proceed
  else if bypass_paths.any (fun bp => mw_path_matches bp path) then MwDecision.proceed
  else if bearer_token_valid then MwDecision.proceed
  else if api_key_valid then MwDecision.proceed
  else MwDecision.reject 401

/-- `HeaderMap::insert`: replace any existing value under the key. -/
def headers_insert (hs : List (Str × Str)) (k v : Str) : List (Str × Str) :=
  (k, v) :: hs.filter (fun p => !(p.1 == k))

/-- `logging_middleware` (middleware.rs lines 12-47): draw a fresh UUID, use
it as the correlation id in both log lines, and insert it into the request's
`X-Request-ID` header before calling the next layer.  Returns the logged id
and the request headers handed onward. -/
def logging_middleware (fresh_id : Str) (req_headers : List (Str × Str)) :
    Str × List (Str × Str) :=
  (fresh_id, headers_insert req_headers (str "X-Request-ID") fresh_id)

/-- The correlation-id plumbing of one proxied request: `logging_middleware`
draws `mw_uuid`, logs it and inserts it into the request headers
(middleware.rs lines 19-23); `proxy_handler` then draws a separate fresh
`handler_uuid` (main.rs line 205) and passes it to `proxy_request`, whose
outbound header construction appends it (proxy.rs line 119).  Returns the
logged id and the outbound upstream headers. -/
def request_id_flow (mw_uuid handler_uuid : Str)
    (req_headers : List (Str × Str)) : Str × List (Str × Str) :=
  let logged := (logging_middleware mw_uuid req_headers).1
  let forwarded := (logging_middleware mw_uuid req_headers).2
  (logged, outbound_headers forwarded handler_uuid)

/-! ### Concrete route fixtures used by the theorems -/

/-- A catch-all route dispatched with LeastConnections. -/
def route_lc : RouteConfig :=
  { path := str "*"
    method := none
    backend := str "backend_api"
    load_balancing := LoadBalancingStrategy.LeastConnections
    rate_limit := none
    auth_required := false
    timeout_ms := none }

/-- A wildcard API route with a 100 ms per-route timeout. -/
def route_timeout : RouteConfig :=
  { path := str "/api/*"
    method := none
    backend := str "backend_api"
    load_balancing := LoadBalancingStrategy.RoundRobin
    rate_limit := none
    auth_required := false
    timeout_ms := some 100 }

/-- A wildcard API route restricted (per its configuration) to POST. -/
def route_post : RouteConfig :=
  { path := str "/api/*"
    method := some (str "POST")
    backend := str "backend_api"
    load_balancing := LoadBalancingStrategy.RoundRobin
    rate_limit := none
    auth_required := false
    timeout_ms := none }

/-! ## Theorems for the claims -/

/-- C1: the claim states that a server becomes Healthy only once consecutive
successes reach H and Unhealthy only once consecutive failures reach U, with
a single failure on a Healthy server harmless whenever U > 1.  The code's
`update_server_health` never consults the thresholds: under the default
configuration (H = 2, U = 3) a single successful probe already sets status
Healthy, and a single failed probe on that Healthy server immediately sets
status Unhealthy at `consecutive_failures = 1 < U`. -/
theorem c1_thresholds_ignored (u : Str) :
    default_health_check.healthy_threshold = 2 ∧
    default_health_check.unhealthy_threshold = 3 ∧
    (apply_probes (init_server_health u) [true]).status = HealthStatus.Healthy ∧
    (apply_probes (init_server_health u) [true]).consecutive_successes = 1 ∧
    (apply_probes (init_server_health u) [true, false]).status = HealthStatus.Unhealthy ∧
    (apply_probes (init_server_health u) [true, false]).consecutive_failures = 1 :=
  ⟨rfl, rfl, rfl, rfl, rfl, rfl⟩

/-- C9: after any single probe update, a positive success streak forces the
failure streak to be zero and vice versa: each branch of
`update_server_health` zeroes the opposite counter. -/
theorem c9_counter_exclusivity (s : ServerHealth) (ok : Bool)
    (rt : Option Nat) (now : Nat) :
    (0 < (update_server_health s ok rt now).consecutive_successes →
      (update_server_health s ok rt now).consecutive_failures = 0) ∧
    (0 < (update_server_health s ok rt now).consecutive_failures →
      (update_server_health s ok rt now).consecutive_successes = 0) := by
  cases ok <;> simp [update_server_health]

/-- Witness for C9: a concrete successful probe leaves a positive success
streak and a zero failure streak. -/
theorem c9_counter_exclusivity_witness :
    0 < (update_server_health (init_server_health (str "s1")) true (some 1) 7).consecutive_successes ∧
    (update_server_health (init_server_health (str "s1")) true (some 1) 7).consecutive_failures = 0 :=
  ⟨by decide,
   (c9_counter_exclusivity (init_server_health (str "s1")) true (some 1) 7).1 (by decide)⟩

/-- C3: the claim states that `select` returns a server only if its health
status is Healthy, and in particular never returns a server still in the
initial Unknown state.  In the code, `HealthChecker::new` starts every server
at `Unknown`, but `ProxyService::new` independently starts every server with
`healthy = true`, so `select_server` happily returns a server that has never
been probed and whose health status is still Unknown. -/
theorem c3_unknown_server_selected (u : Str) :
    (init_server_health u).status = HealthStatus.Unknown ∧
    (init_backend_state [u]).servers.map (fun s => s.healthy) = [true] ∧
    (select_server (init_backend_state [u]) LoadBalancingStrategy.RoundRobin 0).map Prod.fst
      = some u :=
  ⟨rfl, rfl, rfl⟩

/-- C4: the claim states that the in-flight connection counter returns to its
pre-request value once the request completes.  In the code the counter is
incremented inside `select_server` (proxy.rs line 230) and no code path ever
decrements it, so after a successfully completed request the counter of the
selected server is its previous value plus one. -/
theorem c4_connection_counter_leak (u : Str) (status : Nat) :
    (proxy_request [route_lc] (init_backend_state [u]) 0 (str "/x")
        (UpstreamOutcome.success status [] [])).1
      = Except.ok { status := status, headers := [], body := [] } ∧
    ((proxy_request [route_lc] (init_backend_state [u]) 0 (str "/x")
        (UpstreamOutcome.success status [] [])).2.servers.map (fun s => s.connections))
      = [1] ∧
    ((init_backend_state [u]).servers.map (fun s => s.connections)) = [0] ∧
    ¬ ((proxy_request [route_lc] (init_backend_state [u]) 0 (str "/x")
        (UpstreamOutcome.success status [] [])).2.servers.map (fun s => s.connections)
      = (init_backend_state [u]).servers.map (fun s => s.connections)) := by
  refine ⟨rfl, rfl, rfl, ?_⟩
  intro h
  have h2 : ([1] : List Nat) = [0] := h
  exact absurd h2 (by decide)

/-- C2, counterexample: the claim states that when the distributed store is
unreachable the middleware lets the request proceed (fail-open).  With redis
storage configured and the connection failing, the middleware terminates the
request instead. -/
theorem c2_counterexample :
    rate_limit_middleware true
      ((check_rate_limit (str "redis")
        { has_client := true, conn_ok := false, counters := fun _ => 0 }
        (str "ip:1.2.3.4") 0 60 (Except.ok ())).1)
      ≠ MwDecision.proceed := by decide

/-- C2, amended: when the rate limiter is configured with redis storage and
the backing store is unreachable, `check_rate_limit` returns `InternalError`,
and the rate-limit middleware — whose `if let Err(_)` treats every limiter
error alike — terminates the request with 429 (fail-closed) rather than
letting it proceed. -/
theorem c2_store_unreachable_fails_closed (client_id : Str) (now limit : Nat)
    (cs : Str → Nat) (mem : Except RateLimitError Unit) :
    (check_rate_limit (str "redis")
        { has_client := true, conn_ok := false, counters := cs }
        client_id now limit mem).1
      = Except.error (RateLimitError.InternalError (str "Redis connection error")) ∧
    rate_limit_middleware true
      ((check_rate_limit (str "redis")
        { has_client := true, conn_ok := false, counters := cs }
        client_id now limit mem).1)
      = MwDecision.reject 429 :=
  ⟨rfl, rfl⟩

/-- C5, counterexample: the claim states that a request whose route sets
`optional_timeout_ms` and whose upstream call exceeds the deadline yields 504.
On a route with a 100 ms timeout and a timed-out upstream call the gateway
answers 502, not 504: `proxy_handler` maps every proxy error to
`StatusCode::BAD_GATEWAY`. -/
theorem c5_counterexample :
    route_timeout.timeout_ms = some 100 ∧
    proxy_handler_status (proxy_request [route_timeout]
        (init_backend_state [str "s1"]) 0 (str "/api/x") UpstreamOutcome.timeout).1 = 502 ∧
    proxy_handler_status (proxy_request [route_timeout]
        (init_backend_state [str "s1"]) 0 (str "/api/x") UpstreamOutcome.timeout).1 ≠ 504 := by
  refine ⟨rfl, rfl, ?_⟩
  decide

/-- C5, amended: on an upstream timeout the proxy fails with the generic
upstream error (`reqwest`'s timeout surfaces through the single `?` on
`send()`, indistinguishable from a transport error), and the gateway returns
502 to the client: there is no `UpstreamTimeout` variant and no 504 path. -/
theorem c5_timeout_returns_502 (routes : List RouteConfig) (b : BackendState)
    (rand_idx : Nat) (p : Str) (r : RouteConfig)
    (hroute : find_matching_route routes p = some r)
    (hsel : (select_server b r.load_balancing rand_idx).isSome = true) :
    (proxy_request routes b rand_idx p UpstreamOutcome.timeout).1
      = Except.error ProxyError.upstream_error ∧
    proxy_handler_status (proxy_request routes b rand_idx p UpstreamOutcome.timeout).1
      = 502 := by
  obtain ⟨x, hx⟩ := Option.isSome_iff_exists.mp hsel
  obtain ⟨url, b2⟩ := x
  refine ⟨?_, ?_⟩ <;> simp [proxy_request, proxy_handler_status, hroute, hx]

/-- Witness for C5: the amended statement at a concrete route, backend and
request. -/
theorem c5_timeout_returns_502_witness :
    (proxy_request [route_timeout] (init_backend_state [str "s1"]) 0 (str "/api/x")
        UpstreamOutcome.timeout).1 = Except.error ProxyError.upstream_error ∧
    proxy_handler_status (proxy_request [route_timeout] (init_backend_state [str "s1"]) 0
        (str "/api/x") UpstreamOutcome.timeout).1 = 502 :=
  c5_timeout_returns_502 [route_timeout] (init_backend_state [str "s1"]) 0
    (str "/api/x") route_timeout rfl rfl

/-- C8: the claim states that the distributed fixed-window check allows
exactly when the post-increment counter of the window key is at most the
configured quota, and denies otherwise.  The pipeline at rate_limiter.rs
lines 99-106 leaves two replies non-ignored (INCR and GET; only EXPIRE is
`.ignore()`d) yet destructures them into the one-tuple `(i32,)`, a
conversion that fails on every call, so whenever a connection is obtained
the check returns `InternalError ("Redis query error...")` - never `Ok`
(Allow) and never `Exceeded` (Deny) - for every client, time, counter value
and quota. -/
theorem c8_pipeline_arity_always_internal_error (cs : Str → Nat)
    (client_id : Str) (now limit : Nat) :
    (check_rate_limit_redis { has_client := true, conn_ok := true, counters := cs }
        client_id now limit).1
      = Except.error (RateLimitError.InternalError (str "Redis query error")) ∧
    (check_rate_limit_redis { has_client := true, conn_ok := true, counters := cs }
        client_id now limit).1 ≠ Except.ok () ∧
    (check_rate_limit_redis { has_client := true, conn_ok := true, counters := cs }
        client_id now limit).1 ≠ Except.error RateLimitError.Exceeded := by
  have h1 : (check_rate_limit_redis { has_client := true, conn_ok := true, counters := cs }
      client_id now limit).1
      = Except.error (RateLimitError.InternalError (str "Redis query error")) := rfl
  refine ⟨h1, ?_, ?_⟩
  · rw [h1]
    intro h
    injection h
  · rw [h1]
    intro h
    injection h with h2
    exact RateLimitError.noConfusion h2

/-- C6, counterexample: the claim states that a route whose `optional_method`
is set matches only requests whose method equals it case-insensitively.  The
code's route lookup never reads the method: a GET request is matched to a
route declared with method POST. -/
theorem c6_counterexample :
    match_route (str "GET") [route_post] (str "/api/x") = some route_post ∧
    route_post.method = some (str "POST") ∧
    lower (str "GET") ≠ lower (str "POST") := by
  refine ⟨rfl, rfl, ?_⟩
  decide

/-- C6, amended: the route lookup returns the first route in declaration
order whose pattern matches the path (wildcard patterns by raw prefix, others
by exact equality, per `path_matches`); the request method and the routes'
`optional_method` play no part, so the result is identical for every method. -/
theorem c6_first_match_ignores_method (m m2 : Str) (routes : List RouteConfig)
    (p : Str) (r : RouteConfig) (h : match_route m routes p = some r) :
    path_matches r.path p = true ∧
    (∃ before after, routes = before ++ r :: after ∧
      ∀ x ∈ before, path_matches x.path p = false) ∧
    match_route m2 routes p = match_route m routes p := by
  have h2 := (List.find?_eq_some).mp h
  refine ⟨h2.1, ?_, rfl⟩
  obtain ⟨as, bs, heq, hall⟩ := h2.2
  exact ⟨as, bs, heq, fun x hx => by simpa using hall x hx⟩

/-- Witness for C6: the amended statement on a one-route table and a concrete
GET request. -/
theorem c6_first_match_ignores_method_witness :
    path_matches route_post.path (str "/api/x") = true ∧
    (∃ before after, [route_post] = before ++ route_post :: after ∧
      ∀ x ∈ before, path_matches x.path (str "/api/x") = false) ∧
    match_route (str "PUT") [route_post] (str "/api/x")
      = match_route (str "GET") [route_post] (str "/api/x") :=
  c6_first_match_ignores_method (str "GET") (str "PUT") [route_post]
    (str "/api/x") route_post rfl

/-- C7: the claim states that the X-Request-ID value injected on the outbound
upstream request equals the correlation id logged for the request.  In the
code `logging_middleware` draws one fresh UUID, logs it and inserts it into
the request headers, but `proxy_handler` draws a second fresh UUID and passes
that one to `proxy_request`, which appends it as the outbound `X-Request-ID`.
Whenever the two draws differ (the freshness guarantee of v4 UUIDs), the
injected value differs from the logged one. -/
theorem c7_logged_and_injected_ids_differ (mw_uuid handler_uuid : Str)
    (req_headers : List (Str × Str)) (hfresh : mw_uuid ≠ handler_uuid) :
    (request_id_flow mw_uuid handler_uuid req_headers).1 = mw_uuid ∧
    ((request_id_flow mw_uuid handler_uuid req_headers).2).getLast?
      = some (str "X-Request-ID", handler_uuid) ∧
    ((request_id_flow mw_uuid handler_uuid req_headers).2).getLast?
      ≠ some (str "X-Request-ID", (request_id_flow mw_uuid handler_uuid req_headers).1) := by
  have hlast : ((request_id_flow mw_uuid handler_uuid req_headers).2).getLast?
      = some (str "X-Request-ID", handler_uuid) := by
    unfold request_id_flow outbound_headers
    exact List.getLast?_concat _
  refine ⟨rfl, hlast, ?_⟩
  rw [hlast]
  intro hcontra
  have : handler_uuid = mw_uuid := by
    have h2 := Option.some.inj hcontra
    exact congrArg Prod.snd h2
  exact hfresh this.symm

/-- Witness for C7: two concrete distinct UUID draws. -/
theorem c7_logged_and_injected_ids_differ_witness :
    (request_id_flow (str "id-a") (str "id-b") []).1 = str "id-a" ∧
    ((request_id_flow (str "id-a") (str "id-b") []).2).getLast?
      = some (str "X-Request-ID", str "id-b") ∧
    ((request_id_flow (str "id-a") (str "id-b") []).2).getLast?
      ≠ some (str "X-Request-ID", (request_id_flow (str "id-a") (str "id-b") []).1) :=
  c7_logged_and_injected_ids_differ (str "id-a") (str "id-b") [] (by decide)

/-- C10: wildcard patterns match by raw string prefix with the trailing star
removed and with no path-segment boundary check: the bare star pattern
(empty prefix) matches every path, and the pattern `/api*` matches the path
`/apifoo`; the middleware's `path_matches` used for auth `bypass_paths` is
extensionally the same function as the proxy's, so a bypass entry consisting
of a single star passes every request through authentication. -/
theorem c10_wildcard_semantics :
    (∀ pattern p : Str, pattern.getLast? = some '*' →
        path_matches pattern p = starts_with p pattern.dropLast) ∧
    (∀ p : Str, path_matches (str "*") p = true) ∧
    path_matches (str "/api*") (str "/apifoo") = true ∧
    (∀ pattern p : Str, mw_path_matches pattern p = path_matches pattern p) ∧
    (∀ p : Str, ∀ bearer api_key : Bool,
        auth_middleware true [str "*"] p bearer api_key = MwDecision.proceed) := by
  refine ⟨?_, ?_, by decide, ?_, ?_⟩
  · intro pattern p h
    simp [path_matches, h]
  · intro p
    have e : path_matches (str "*") p = starts_with p [] := rfl
    rw [e]
    simp [starts_with]
  · intro pattern p
    rfl
  · intro p bearer api_key
    have h : mw_path_matches (str "*") p = true := by
      have e : mw_path_matches (str "*") p = starts_with p [] := rfl
      rw [e]
      simp [starts_with]
    simp [auth_middleware, h]

/-- Witness for C10: the wildcard clause instantiated at the pattern `/api*`
and the path `/apifoo`. -/
theorem c10_wildcard_semantics_witness :
    (str "/api*").getLast? = some '*' ∧
    path_matches (str "/api*") (str "/apifoo")
      = starts_with (str "/apifoo") ((str "/api*").dropLast) :=
  ⟨by decide, c10_wildcard_semantics.1 (str "/api*") (str "/apifoo") (by decide)⟩
